import Mathlib

/-!
Verification of the time-display entries of the iyes_perf_ui repository
(file src/time.rs), shallowly embedded in Lean 4.

Modelling conventions:
* A Rust Duration (seconds u64 + subsecond nanoseconds u32) is embedded as a
  single Nat counting total nanoseconds.  Comparison and subtraction agree
  with the Rust type under this encoding.  Rust Duration subtraction panics
  on underflow (checked_sub + expect), which is embedded as Except.error
  carrying the panic message.
* The system wall clock (std SystemTime::now) is embedded as an Int of
  nanoseconds relative to UNIX_EPOCH; duration_since(UNIX_EPOCH) fails
  exactly when that Int is negative.
* The compile-time cargo feature "chrono" is embedded as a Bool parameter
  chrono_feature passed to the operations whose body depends on it.
* Rust functions taking the entry by mutable reference are embedded in
  state-passing style: they return the entry that is left in place after
  the call, together with the Option value the Rust function returns.
-/

/-- Embedding of struct PerfUiEntryRunningTime (src/time.rs lines 13 to 45).
The fields digits and precision are u8 in the source; they are embedded as
Nat, since no arithmetic in the source can overflow them. The field start is
an Option Duration, embedded as an optional nanosecond count. -/
structure PerfUiEntryRunningTime where
  label : String
  start : Option Nat
  format_hms : Bool
  display_units : Bool
  digits : Nat
  precision : Nat
  sort_key : Int
  deriving Repr, DecidableEq

/-- Embedding of struct PerfUiEntryClock (src/time.rs lines 66 to 82). -/
structure PerfUiEntryClock where
  label : String
  prefer_utc : Bool
  precision : Nat
  sort_key : Int
  deriving Repr, DecidableEq

/-- Modelled from the spec: the process-wide sort-key allocator
crate::utils::next_sort_key is called by both Default impls but its code is
not under src/.  The spec describes it as a process-wide monotonically
increasing counter with no reuse.  It is embedded in state-passing style:
given the counter state, it returns the allocated key and the next state. -/
def next_sort_key (counter : Int) : Int × Int :=
  (counter, counter + 1)

/-- Embedding of impl Default for PerfUiEntryRunningTime (src/time.rs lines
47 to 59), in state-passing style over the sort-key counter. -/
def PerfUiEntryRunningTime.default (counter : Int) :
    PerfUiEntryRunningTime × Int :=
  ({ label := ""
     start := none
     format_hms := false
     display_units := true
     digits := 5
     precision := 3
     sort_key := (next_sort_key counter).1 }, (next_sort_key counter).2)

/-- Embedding of impl Default for PerfUiEntryClock (src/time.rs lines 84 to
93), in state-passing style over the sort-key counter. -/
def PerfUiEntryClock.default (counter : Int) : PerfUiEntryClock × Int :=
  ({ label := ""
     prefer_utc := false
     precision := 0
     sort_key := (next_sort_key counter).1 }, (next_sort_key counter).2)

/-- Embedding of PerfUiEntryRunningTime::label (src/time.rs lines 99 to
105): the default label when the custom label is empty. Named label_str
because the Lean field projection already takes the name label. -/
def PerfUiEntryRunningTime.label_str (e : PerfUiEntryRunningTime) : String :=
  if e.label = "" then "Running Time" else e.label

/-- Embedding of PerfUiEntryRunningTime::update_value (src/time.rs lines 109
to 119).  The input is the elapsed time from Time::elapsed in nanoseconds.
The Rust body computes elapsed - start with Duration subtraction, which
panics on underflow; the panic is embedded as Except.error with the message
the Rust standard library uses.  The returned pair carries the entry left in
self after the call (the body never assigns to self). -/
def PerfUiEntryRunningTime.update_value (e : PerfUiEntryRunningTime)
    (elapsed : Nat) :
    Except String (PerfUiEntryRunningTime × Option Nat) :=
  match e.start with
  | some s =>
      if s ≤ elapsed then
        Except.ok (e, some (elapsed - s))
      else
        Except.error "overflow when subtracting durations"
  | none => Except.ok (e, some elapsed)

/-- Left-pad a decimal string with zeros to the given width. -/
def padZeros (width : Nat) (s : String) : String :=
  String.mk (List.replicate (width - s.length) '0') ++ s

/-- The first p fractional digits determined by a subsecond nanosecond
count ns (0 ≤ ns < 10^9), read as the decimal expansion of ns / 10^9. -/
def fracDigitsVal (p : Nat) (ns : Nat) : Nat :=
  if p ≤ 9 then ns / 10 ^ (9 - p) else ns * 10 ^ (p - 9)

/-- Modelled from the spec: crate::utils::format_pretty_float is called by
PerfUiEntryRunningTime::format_value but its code is not under src/.  The
spec describes it as: zero-pad the integer part to the given integer digit
width, truncate the fractional part to the given fractional digit width,
joined by a single decimal point when the fractional width is positive (the
spec scenario 123.4567 with precision 3 giving 00123.456 fixes truncation).
The value is taken as a duration in nanoseconds rather than the f64 seconds
of the source, so the digits are computed exactly. -/
def format_pretty_float (digits precision : Nat) (nanos : Nat) : String :=
  if precision = 0 then
    padZeros digits (Nat.repr (nanos / 1000000000))
  else
    padZeros digits (Nat.repr (nanos / 1000000000)) ++ "." ++
      padZeros precision (Nat.repr (fracDigitsVal precision (nanos % 1000000000)))

/-- Modelled from the spec: crate::utils::format_pretty_time_hms is called
by PerfUiEntryClock::format_value but its code is not under src/.  The spec
describes it as rendering HH:MM:SS from two-digit zero-padded fields joined
by colons, with an optional fractional-second suffix of the given number of
digits derived from the nanosecond component. -/
def format_pretty_time_hms (precision h m s nanos : Nat) : String :=
  padZeros 2 (Nat.repr h) ++ ":" ++ padZeros 2 (Nat.repr m) ++ ":" ++
    padZeros 2 (Nat.repr s) ++
    (if precision = 0 then ""
     else "." ++ padZeros precision (Nat.repr (fracDigitsVal precision nanos)))

/-- Modelled from the spec: crate::utils::format_pretty_time is called by
PerfUiEntryRunningTime::format_value in HH:MM:SS mode but its code is not
under src/.  The spec describes it as the duration-to-HH:MM:SS pretty
printer; it decomposes the duration and delegates to the HMS renderer. -/
def format_pretty_time (precision : Nat) (nanos : Nat) : String :=
  format_pretty_time_hms precision
    (nanos / 1000000000 / 3600)
    (nanos / 1000000000 / 60 % 60)
    (nanos / 1000000000 % 60)
    (nanos % 1000000000)

/-- Embedding of PerfUiEntryRunningTime::format_value (src/time.rs lines 120
to 133): HH:MM:SS mode delegates to the pretty-time helper, decimal mode
formats seconds with the float helper and appends the unit suffix when
display_units is set. -/
def PerfUiEntryRunningTime.format_value (e : PerfUiEntryRunningTime)
    (value : Nat) : String :=
  if e.format_hms then
    format_pretty_time e.precision value
  else
    if e.display_units then
      format_pretty_float e.digits e.precision value ++ " s"
    else
      format_pretty_float e.digits e.precision value

/-- Embedding of PerfUiEntryClock::label (src/time.rs lines 141 to 151).
The compile-time check cfg feature chrono is the Bool parameter. -/
def PerfUiEntryClock.label_str (e : PerfUiEntryClock)
    (chrono_feature : Bool) : String :=
  if e.label = "" then
    if chrono_feature && !e.prefer_utc then "Clock" else "Clock (UTC)"
  else
    e.label

/-- Embedding of get_system_clock_utc (src/time.rs lines 185 to 193).  The
argument is SystemTime::now as signed nanoseconds since UNIX_EPOCH;
duration_since(UNIX_EPOCH) fails, and the ? operator returns None, exactly
when that value is negative.  Otherwise secs is the whole-second count and
the tuple is the decomposition the source computes. -/
def get_system_clock_utc (now : Int) : Option (Nat × Nat × Nat × Nat) :=
  if 0 ≤ now then
    some ((now.toNat / 1000000000 / 3600) % 24,
          (now.toNat / 1000000000 / 60) % 60,
          now.toNat / 1000000000 % 60,
          now.toNat % 1000000000)
  else
    none

/-- Modelled from the spec: get_system_clock_local (src/time.rs lines 174 to
183) reads the local wall clock through the external chrono crate, which is
not under src/.  The spec describes the local path as reading the local
wall-clock time and decomposing it into hour, minute, second and subsecond
nanoseconds; a local clock is the UTC timestamp shifted by a timezone offset
in whole seconds, and the time-of-day decomposition of a timestamp uses
floor (Euclidean) division so that it is well defined before the epoch too.
The chrono read itself cannot fail, so the result is always present. -/
def get_system_clock_local (now tz_offset : Int) :
    Option (Nat × Nat × Nat × Nat) :=
  some ((((now.ediv 1000000000 + tz_offset).ediv 3600).emod 24).toNat,
        (((now.ediv 1000000000 + tz_offset).ediv 60).emod 60).toNat,
        ((now.ediv 1000000000 + tz_offset).emod 60).toNat,
        (now.emod 1000000000).toNat)

/-- Embedding of PerfUiEntryClock::update_value (src/time.rs lines 155 to
165): when the chrono feature is compiled in and prefer_utc is not set, the
local path is taken, otherwise the UTC path.  The returned pair carries the
entry left in self after the call (the body never assigns to self). -/
def PerfUiEntryClock.update_value (e : PerfUiEntryClock)
    (chrono_feature : Bool) (now tz_offset : Int) :
    PerfUiEntryClock × Option (Nat × Nat × Nat × Nat) :=
  (e, if chrono_feature && !e.prefer_utc then
        get_system_clock_local now tz_offset
      else
        get_system_clock_utc now)

/-- Embedding of PerfUiEntryClock::format_value (src/time.rs lines 166 to
171). -/
def PerfUiEntryClock.format_value (e : PerfUiEntryClock)
    (v : Nat × Nat × Nat × Nat) : String :=
  format_pretty_time_hms e.precision v.1 v.2.1 v.2.2.1 v.2.2.2

/-- Claim C1 counterexample: the claim that update_value always succeeds,
even when the configured start baseline exceeds the current elapsed time, is
false on the code: with start = some 5 s and elapsed = 3 s the Duration
subtraction elapsed - start underflows and the Rust standard library panics
with the message below, so no value is produced for the formatter. -/
theorem c1_counterexample :
    (PerfUiEntryRunningTime.mk "" (some 5000000000) false true 5 3 0).update_value
      3000000000 = Except.error "overflow when subtracting durations" := rfl

/-- Claim C1, amended: update_value of PerfUiEntryRunningTime succeeds
whenever the start baseline is unset or does not exceed the current elapsed
time; in that range there is no failure path.  (When start exceeds elapsed,
the Duration subtraction panics, per the counterexample.) -/
theorem c1_no_underflow_no_panic (e : PerfUiEntryRunningTime) (t : Nat)
    (h : ∀ x, e.start = some x → x ≤ t) :
    ∃ r, e.update_value t = Except.ok r := by
  cases hs : e.start with
  | none => exact ⟨(e, some t), by simp [PerfUiEntryRunningTime.update_value, hs]⟩
  | some x =>
      exact ⟨(e, some (t - x)),
        by simp [PerfUiEntryRunningTime.update_value, hs, h x hs]⟩

/-- Witness for C1: with start = some 3 s and elapsed = 5 s the update
succeeds. -/
theorem c1_witness :
    ∃ r, (PerfUiEntryRunningTime.mk "" (some 3000000000) false true 5 3 0).update_value
      5000000000 = Except.ok r :=
  c1_no_underflow_no_panic _ 5000000000 (by intro x hx; simp at hx; omega)

/-- Claim C2: update_value of PerfUiEntryRunningTime with start = none
returns the input elapsed time unchanged, and with start = some x under the
precondition x ≤ elapsed it returns exactly elapsed - x. -/
theorem c2_update_exact (e : PerfUiEntryRunningTime) (t : Nat) :
    (e.start = none → e.update_value t = Except.ok (e, some t)) ∧
    (∀ x, e.start = some x → x ≤ t →
      e.update_value t = Except.ok (e, some (t - x))) := by
  constructor
  · intro hs; simp [PerfUiEntryRunningTime.update_value, hs]
  · intro x hs hx; simp [PerfUiEntryRunningTime.update_value, hs, hx]

/-- Witness for C2: with no baseline, elapsed 7 is returned unchanged; with
baseline 5 and elapsed 12, the difference 7 is returned. -/
theorem c2_witness :
    (PerfUiEntryRunningTime.mk "" none false true 5 3 0).update_value 7 =
      Except.ok (PerfUiEntryRunningTime.mk "" none false true 5 3 0, some 7) ∧
    (PerfUiEntryRunningTime.mk "" (some 5) false true 5 3 0).update_value 12 =
      Except.ok (PerfUiEntryRunningTime.mk "" (some 5) false true 5 3 0, some 7) :=
  ⟨(c2_update_exact _ 7).1 rfl,
   (c2_update_exact _ 12).2 5 rfl (by omega)⟩

/-- Claim C3: whenever update_value of PerfUiEntryClock returns a value, on
either the local-time or the UTC path, the 4-tuple satisfies hour ≤ 23,
minute ≤ 59, second ≤ 59 and nanosecond ≤ 999999999. -/
theorem c3_clock_components_bounded (e : PerfUiEntryClock) (b : Bool)
    (now tz : Int) (h m s ns : Nat)
    (hv : (e.update_value b now tz).2 = some (h, m, s, ns)) :
    h ≤ 23 ∧ m ≤ 59 ∧ s ≤ 59 ∧ ns ≤ 999999999 := by
  replace hv :
      (if b && !e.prefer_utc then get_system_clock_local now tz
       else get_system_clock_utc now) = some (h, m, s, ns) := hv
  split at hv
  · unfold get_system_clock_local at hv
    simp only [Option.some.injEq, Prod.mk.injEq] at hv
    obtain ⟨h1, h2, h3, h4⟩ := hv
    subst h1 h2 h3 h4
    have b1 : 0 ≤ ((now.ediv 1000000000 + tz).ediv 3600).emod 24 :=
      Int.emod_nonneg _ (by norm_num)
    have b2 : ((now.ediv 1000000000 + tz).ediv 3600).emod 24 < 24 :=
      Int.emod_lt_of_pos _ (by norm_num)
    have b3 : 0 ≤ ((now.ediv 1000000000 + tz).ediv 60).emod 60 :=
      Int.emod_nonneg _ (by norm_num)
    have b4 : ((now.ediv 1000000000 + tz).ediv 60).emod 60 < 60 :=
      Int.emod_lt_of_pos _ (by norm_num)
    have b5 : 0 ≤ (now.ediv 1000000000 + tz).emod 60 :=
      Int.emod_nonneg _ (by norm_num)
    have b6 : (now.ediv 1000000000 + tz).emod 60 < 60 :=
      Int.emod_lt_of_pos _ (by norm_num)
    have b7 : 0 ≤ now.emod 1000000000 := Int.emod_nonneg _ (by norm_num)
    have b8 : now.emod 1000000000 < 1000000000 :=
      Int.emod_lt_of_pos _ (by norm_num)
    refine ⟨?_, ?_, ?_, ?_⟩ <;> omega
  · unfold get_system_clock_utc at hv
    split at hv
    · simp only [Option.some.injEq, Prod.mk.injEq] at hv
      obtain ⟨h1, h2, h3, h4⟩ := hv
      subst h1 h2 h3 h4
      refine ⟨?_, ?_, ?_, ?_⟩ <;> omega
    · exact absurd hv (by simp)

/-- Witness for C3: the UTC reading at the epoch yields the tuple
(0, 0, 0, 0), which satisfies all four bounds. -/
theorem c3_witness :
    ((PerfUiEntryClock.mk "" true 0 0).update_value false 0 0).2 =
      some (0, 0, 0, 0) ∧
    ((0 : Nat) ≤ 23 ∧ (0 : Nat) ≤ 59 ∧ (0 : Nat) ≤ 59 ∧ (0 : Nat) ≤ 999999999) :=
  ⟨rfl, c3_clock_components_bounded (PerfUiEntryClock.mk "" true 0 0) false 0 0
    0 0 0 0 rfl⟩

/-- Claim C4: on the UTC path (here forced by prefer_utc = true), for every
system-time reading of ts whole seconds since the epoch with subsecond
nanoseconds ns, update_value of PerfUiEntryClock returns exactly
(ts / 3600 mod 24, ts / 60 mod 60, ts mod 60, ns). -/
theorem c4_utc_decomposition (e : PerfUiEntryClock) (b : Bool) (tz : Int)
    (ts ns : Nat) (hp : e.prefer_utc = true) (hns : ns < 1000000000) :
    (e.update_value b ((ts * 1000000000 + ns : Nat) : Int) tz).2 =
      some ((ts / 3600) % 24, (ts / 60) % 60, ts % 60, ns) := by
  have h1 : (ts * 1000000000 + ns) / 1000000000 = ts := by omega
  have h2 : (ts * 1000000000 + ns) % 1000000000 = ns := by omega
  simp only [PerfUiEntryClock.update_value, hp, Bool.not_true, Bool.and_false,
    Bool.false_eq_true, if_false, get_system_clock_utc,
    Int.natCast_nonneg, if_true, if_pos, Int.toNat_natCast, h1, h2]

/-- Witness for C4: at 50709 s after midnight (14:05:09 UTC) with no
subsecond nanoseconds, the update returns (14, 5, 9, 0), matching the spec
scenario. -/
theorem c4_witness :
    ((PerfUiEntryClock.mk "" true 0 0).update_value false
      ((50709 * 1000000000 + 0 : Nat) : Int) 0).2 = some (14, 5, 9, 0) := by
  have h := c4_utc_decomposition (PerfUiEntryClock.mk "" true 0 0) false 0
    50709 0 rfl (by omega)
  rw [h]

/-- Claim C5: update_value of PerfUiEntryClock returns an absent result if
and only if the underlying system clock read fails, which on the UTC read
means exactly that the current system time precedes the Unix epoch; the
local read (taken when the chrono feature is on and prefer_utc is off)
cannot fail, and in every other case a value is returned.  The failure is
an absent Option, not a panic. -/
theorem c5_absent_iff_clock_read_fails (e : PerfUiEntryClock) (b : Bool)
    (now tz : Int) :
    ((e.update_value b now tz).2 = none ↔
      ((b = false ∨ e.prefer_utc = true) ∧ get_system_clock_utc now = none)) ∧
    (get_system_clock_utc now = none ↔ now < 0) := by
  constructor
  · cases b <;> cases hp : e.prefer_utc <;>
      simp [PerfUiEntryClock.update_value, get_system_clock_local, hp]
  · unfold get_system_clock_utc
    split <;> simp <;> omega

/-- Claim C6: the running-time label is the custom label when non-empty and
the literal Running Time when empty; the clock label is the custom label
when non-empty, and when empty it is Clock exactly when the chrono feature
is compiled in and prefer_utc is false, otherwise Clock (UTC). -/
theorem c6_default_labels (b : Bool) (e : PerfUiEntryRunningTime)
    (c : PerfUiEntryClock) :
    (e.label ≠ "" → e.label_str = e.label) ∧
    (e.label = "" → e.label_str = "Running Time") ∧
    (c.label ≠ "" → c.label_str b = c.label) ∧
    (c.label = "" →
      c.label_str b =
        if b = true ∧ c.prefer_utc = false then "Clock" else "Clock (UTC)") := by
  refine ⟨fun h => ?_, fun h => ?_, fun h => ?_, fun h => ?_⟩
  · simp [PerfUiEntryRunningTime.label_str, h]
  · simp [PerfUiEntryRunningTime.label_str, h]
  · simp [PerfUiEntryClock.label_str, h]
  · cases b <;> cases hp : c.prefer_utc <;>
      simp [PerfUiEntryClock.label_str, h, hp]

/-- Witness for C6: concrete labels for each branch, including the spec
scenario with the custom label Uptime. -/
theorem c6_witness :
    (PerfUiEntryRunningTime.mk "Uptime" none false true 5 3 0).label_str = "Uptime" ∧
    (PerfUiEntryRunningTime.mk "" none false true 5 3 0).label_str = "Running Time" ∧
    (PerfUiEntryClock.mk "MyClock" false 0 0).label_str true = "MyClock" ∧
    (PerfUiEntryClock.mk "" false 0 0).label_str true = "Clock" ∧
    (PerfUiEntryClock.mk "" false 0 0).label_str false = "Clock (UTC)" := by
  have h1 := (c6_default_labels true
    (PerfUiEntryRunningTime.mk "Uptime" none false true 5 3 0)
    (PerfUiEntryClock.mk "MyClock" false 0 0))
  have h2 := (c6_default_labels true
    (PerfUiEntryRunningTime.mk "" none false true 5 3 0)
    (PerfUiEntryClock.mk "" false 0 0))
  have h3 := (c6_default_labels false
    (PerfUiEntryRunningTime.mk "" none false true 5 3 0)
    (PerfUiEntryClock.mk "" false 0 0))
  have g4 := h2.2.2.2 rfl
  have g5 := h3.2.2.2 rfl
  rw [if_pos ⟨rfl, rfl⟩] at g4
  rw [if_neg (by simp)] at g5
  exact ⟨h1.1 (by simp), h2.2.1 rfl, h1.2.2.1 (by simp), g4, g5⟩

/-- Claim C7: any two runs of update_value of PerfUiEntryClock with
prefer_utc = true that observe the same UTC reading return the same value,
regardless of the chrono feature, the timezone offset, or the other fields
of the entries; the result is always the UTC decomposition. -/
theorem c7_prefer_utc_independent (b1 b2 : Bool) (e1 e2 : PerfUiEntryClock)
    (now tz1 tz2 : Int) (h1 : e1.prefer_utc = true)
    (h2 : e2.prefer_utc = true) :
    (e1.update_value b1 now tz1).2 = (e2.update_value b2 now tz2).2 ∧
    (e1.update_value b1 now tz1).2 = get_system_clock_utc now := by
  simp [PerfUiEntryClock.update_value, h1, h2]

/-- Witness for C7: two differently configured entries, one compiled with
the chrono feature and one without, agree at the epoch reading. -/
theorem c7_witness :
    ((PerfUiEntryClock.mk "a" true 0 0).update_value true 0 3600).2 =
      ((PerfUiEntryClock.mk "b" true 5 9).update_value false 0 0).2 ∧
    ((PerfUiEntryClock.mk "a" true 0 0).update_value true 0 3600).2 =
      get_system_clock_utc 0 :=
  c7_prefer_utc_independent true false (PerfUiEntryClock.mk "a" true 0 0)
    (PerfUiEntryClock.mk "b" true 5 9) 0 3600 0 rfl rfl

/-- Claim C8: in decimal-seconds mode (format_hms = false), format_value of
PerfUiEntryRunningTime renders the value through the fixed-width decimal
formatter with the configured digit widths, appending the suffix " s"
exactly when display_units is true.  The spec scenario digits 5, precision
3, elapsed 123.4567 s giving "00123.456 s" is the witness below. -/
theorem c8_decimal_format (e : PerfUiEntryRunningTime) (v : Nat)
    (h : e.format_hms = false) :
    e.format_value v =
      format_pretty_float e.digits e.precision v ++
        (if e.display_units = true then " s" else "") := by
  cases hd : e.display_units <;>
    simp [PerfUiEntryRunningTime.format_value, h, hd, String.append_empty]

/-- Witness for C8: the spec scenario, 123.4567 s with digits 5 and
precision 3 and units displayed, formats to "00123.456 s". -/
theorem c8_witness :
    (PerfUiEntryRunningTime.mk "" none false true 5 3 0).format_value
      123456700000 = "00123.456 s" := by
  have h := c8_decimal_format
    (PerfUiEntryRunningTime.mk "" none false true 5 3 0) 123456700000 rfl
  rw [h]
  rfl

/-- Claim C9: starting from any counter state, two default-constructed
entries allocated in sequence (in any combination of the two entry kinds)
receive sort keys where the second is strictly greater than the first, and
the two keys differ. -/
theorem c9_sort_key_monotonic (counter : Int) :
    ((PerfUiEntryRunningTime.default counter).1.sort_key <
      (PerfUiEntryRunningTime.default
        (PerfUiEntryRunningTime.default counter).2).1.sort_key) ∧
    ((PerfUiEntryRunningTime.default counter).1.sort_key <
      (PerfUiEntryClock.default
        (PerfUiEntryRunningTime.default counter).2).1.sort_key) ∧
    ((PerfUiEntryClock.default counter).1.sort_key <
      (PerfUiEntryRunningTime.default
        (PerfUiEntryClock.default counter).2).1.sort_key) ∧
    ((PerfUiEntryClock.default counter).1.sort_key <
      (PerfUiEntryClock.default
        (PerfUiEntryClock.default counter).2).1.sort_key) ∧
    ((PerfUiEntryRunningTime.default counter).1.sort_key ≠
      (PerfUiEntryRunningTime.default
        (PerfUiEntryRunningTime.default counter).2).1.sort_key) ∧
    ((PerfUiEntryClock.default counter).1.sort_key ≠
      (PerfUiEntryClock.default
        (PerfUiEntryClock.default counter).2).1.sort_key) := by
  simp only [PerfUiEntryRunningTime.default, PerfUiEntryClock.default,
    next_sort_key]
  omega

/-- Claim C10: no operation mutates the configuration of an entry: the
update operations, which take the entry by mutable reference in the source,
leave every field exactly as it was (the entry returned in first position
is the entry left in self), and label_str, format_value and the sort_key
projection take the entry immutably.  For the running-time entry this is
stated on every successful update outcome; for the clock entry on every
call. -/
theorem c10_no_config_mutation (e : PerfUiEntryRunningTime) (t : Nat)
    (r : PerfUiEntryRunningTime × Option Nat)
    (hr : e.update_value t = Except.ok r) (c : PerfUiEntryClock) (b : Bool)
    (now tz : Int) : r.1 = e ∧ (c.update_value b now tz).1 = c := by
  refine ⟨?_, rfl⟩
  cases hs : e.start with
  | none =>
      simp only [PerfUiEntryRunningTime.update_value, hs,
        Except.ok.injEq] at hr
      subst hr
      rfl
  | some x =>
      simp only [PerfUiEntryRunningTime.update_value, hs] at hr
      split at hr
      · simp only [Except.ok.injEq] at hr
        subst hr
        rfl
      · exact absurd hr (by simp)

/-- Witness for C10: a concrete successful update of each entry kind leaves
the entry unchanged. -/
theorem c10_witness :
    ((PerfUiEntryRunningTime.mk "" none false true 5 3 0, (some 4 : Option Nat)).1 =
      PerfUiEntryRunningTime.mk "" none false true 5 3 0) ∧
    ((PerfUiEntryClock.mk "" false 0 0).update_value true 7 0).1 =
      PerfUiEntryClock.mk "" false 0 0 :=
  c10_no_config_mutation (PerfUiEntryRunningTime.mk "" none false true 5 3 0) 4
    (PerfUiEntryRunningTime.mk "" none false true 5 3 0, some 4) rfl
    (PerfUiEntryClock.mk "" false 0 0) true 7 0
